import Mathlib

/-!
Verification of the flow2api worker-pool scheduler against its
natural-language specification.

The definitions below are a shallow embedding of the Python source:

* `src/main.py` — the background loops `auto_unban_task`,
  `auto_st_refresh_task` and the refresh worker `_auto_refresh_st`;
* `src/services/session_manager.py` — `SessionManager.has_session`,
  `SessionManager.delete_session`;
* `src/api/admin.py` — the `add_token` and `plugin_update_token` endpoints.

Time is modelled in integer seconds; `datetime` values become `Int`
timestamps and `None` becomes `Option.none`.  The cooperative event loop is
embedded by letting `asyncio.sleep` be the only way wall-clock time
advances; filesystem state (`browser_sessions/auth_<id>.json`) is a list of
token ids, and the external identity exchange (`flow_client.st_to_at`) is a
function parameter.
-/

/-- A managed worker credential, the fields of a `tokens` row that the
scheduler code reads: id, account email, session token (long-lived secret),
access token (short-lived secret) with its expiry, the administrator enable
flag `is_active`, and the 429 rate-limit ban timestamp. -/
structure Token where
  id : Int
  email : String
  st : String
  accessToken : String
  at_expires : Option Int
  is_active : Bool
  banned_at : Option Int
deriving DecidableEq, Repr

/-- The refresh lead time: `auto_st_refresh_task` treats a token as due when
it expires within 7200 seconds (2 hours), and otherwise tracks
`at_expires - timedelta(hours=2)`. -/
def refreshBuffer : Int := 7200

/-- The condition under which one iteration of the scan loop in
`auto_st_refresh_task` (main.py lines 119-131) appends a token to
`tokens_to_refresh`: it is active, has a known `at_expires`, the time until
expiry is at most `refreshBuffer`, and a cached browser session file exists
for it (`session_mgr.has_session`). -/
def dueCond (hs : Int → Bool) (now : Int) (t : Token) : Bool :=
  t.is_active &&
    (match t.at_expires with
     | none => false
     | some e => decide (e - now ≤ refreshBuffer)) &&
    hs t.id

/-- A token is tracked for the next wake time by `auto_st_refresh_task`
when it is active, has a known expiry, and that expiry is more than
`refreshBuffer` away. -/
def trackedCond (now : Int) (t : Token) : Bool :=
  t.is_active &&
    (match t.at_expires with
     | none => false
     | some e => decide (refreshBuffer < e - now))

/-- One iteration of the `for token in tokens` loop of
`auto_st_refresh_task` (main.py lines 119-131).  The accumulator is the pair
`(next_refresh_time, tokens_to_refresh)`.  Note the source compares the
candidate's raw expiry `token.at_expires` against the already buffered
tracked value `next_refresh_time`. -/
def scanStep (hs : Int → Bool) (now : Int)
    (acc : Option Int × List Token) (t : Token) : Option Int × List Token :=
  if !t.is_active then acc
  else
    match t.at_expires with
    | none => acc
    | some e =>
      if e - now ≤ refreshBuffer then
        (acc.1, if hs t.id then acc.2 ++ [t] else acc.2)
      else
        match acc.1 with
        | none => (some (e - refreshBuffer), acc.2)
        | some v => if e < v then (some (e - refreshBuffer), acc.2) else acc

/-- The whole scan of `auto_st_refresh_task`: fold `scanStep` over the token
list starting from `next_refresh_time = None`, `tokens_to_refresh = []`. -/
def scanResult (hs : Int → Bool) (tokens : List Token) (now : Int) :
    Option Int × List Token :=
  tokens.foldl (scanStep hs now) (none, [])

/-- The `tokens_to_refresh` list produced by one scan. -/
def tokensToRefresh (hs : Int → Bool) (tokens : List Token) (now : Int) :
    List Token :=
  (scanResult hs tokens now).2

/-- The `next_refresh_time` value produced by one scan. -/
def nextRefreshTime (hs : Int → Bool) (tokens : List Token) (now : Int) :
    Option Int :=
  (scanResult hs tokens now).1

/-- The duration of the `asyncio.sleep` call that ends an iteration of
`auto_st_refresh_task` (main.py lines 146-154).  The dispatch loop first
sleeps 5 seconds per dispatched refresh, so the clock read by
`datetime.now` at the sleep computation is `now + 5 * |tokens_to_refresh|`;
then the loop sleeps `max(10, next_refresh_time - now)` when a next refresh
time is tracked and 3600 seconds otherwise. -/
def sleepSeconds (hs : Int → Bool) (tokens : List Token) (now : Int) : Int :=
  let r := scanResult hs tokens now
  let now2 := now + 5 * (r.2.length : Int)
  match r.1 with
  | some v => max 10 (v - now2)
  | none => 3600

/-- The wall-clock time of the next scan: the current scan at `now` spends
5 seconds per dispatched refresh and then sleeps `sleepSeconds`. -/
def nextScanTime (hs : Int → Bool) (tokens : List Token) (now : Int) : Int :=
  now + 5 * ((tokensToRefresh hs tokens now).length : Int) +
    sleepSeconds hs tokens now

/-- The sleep duration the specification describes (written from the spec's
words, for comparison with `sleepSeconds`): the minimum `at_expires` over
all enabled workers whose known expiry is more than `refreshBuffer` away,
minus `refreshBuffer`, minus the current time, floored at 10 seconds; 3600
seconds when no such worker exists. -/
def specSleepSeconds (tokens : List Token) (now : Int) : Int :=
  let tracked := tokens.filter fun t =>
    t.is_active &&
      (match t.at_expires with
       | none => false
       | some e => decide (refreshBuffer < e - now))
  match tracked.filterMap Token.at_expires with
  | [] => 3600
  | e :: es => max 10 (es.foldl min e - refreshBuffer - now)

/-- The dispatch loop of `auto_st_refresh_task` (main.py lines 134-144):
each due token's refresh thread is started at the current time, followed by
an `asyncio.sleep(5)`.  The result lists `(dispatch time, token id)` pairs
in order. -/
def dispatchLoop (now : Int) : List Token → List (Int × Int)
  | [] => []
  | t :: ts => (now, t.id) :: dispatchLoop (now + 5) ts

/-- The timed refresh dispatches of one scan. -/
def dispatchTimes (hs : Int → Bool) (tokens : List Token) (now : Int) :
    List (Int × Int) :=
  dispatchLoop now (tokensToRefresh hs tokens now)

/-- The pool visible to a scan at time `t`, given the initial pool and a
list of timed worker additions: `get_all_tokens` returns the initial tokens
plus every token added at or before `t`. -/
def poolAt (p0 : List Token) (adds : List (Int × Token)) (t : Int) :
    List Token :=
  p0 ++ (adds.filter fun a => a.1 ≤ t).map Prod.snd

/-- The scan times of the `auto_st_refresh_task` loop: the first scan runs
at time 0; each later scan runs when the previous iteration's dispatch
delays and final `asyncio.sleep` have elapsed.  The pool is re-read only at
scan time (`get_all_tokens` at main.py line 112); nothing in the loop body
reacts to a pool mutation between scans. -/
def scanTime (hs : Int → Bool) (p0 : List Token)
    (adds : List (Int × Token)) : Nat → Int
  | 0 => 0
  | n + 1 =>
    nextScanTime hs (poolAt p0 adds (scanTime hs p0 adds n))
      (scanTime hs p0 adds n)

/-- SessionManager.has_session (session_manager.py lines 22-24): a session
file `auth_<id>.json` exists.  The filesystem is the list of token ids that
have a session file. -/
def has_session (fs : List Int) (tid : Int) : Bool :=
  fs.contains tid

/-- SessionManager.delete_session (session_manager.py lines 70-81): if the
session file exists it is removed (returning `True`, or `False` when
`os.remove` raises, modelled by the `removeOk` oracle); if it does not
exist the call returns `True` unchanged. -/
def delete_session (fs : List Int) (tid : Int) (removeOk : Bool) :
    Bool × List Int :=
  if fs.contains tid then
    if removeOk then (true, fs.filter fun x => x ≠ tid) else (false, fs)
  else (true, fs)

/-- The possible outcomes of the browser-assisted refresh worker
`_auto_refresh_st` (main.py lines 277-379): the browser flow raised an
exception (caught at line 376), no session token appeared within the wait
budget, a session token was obtained but the ST-to-AT exchange failed
(caught at line 371), or everything succeeded. -/
inductive RefreshOutcome where
  | crashed
  | noST
  | stButExchangeFailed (newST : String)
  | exchanged (newST newAT : String) (newExpiry : Option Int)
deriving DecidableEq, Repr

/-- Whether the refresh outcome counts as a failure of credential renewal. -/
def RefreshOutcome.isFailure : RefreshOutcome → Bool
  | .crashed => true
  | .noST => true
  | .stButExchangeFailed _ => true
  | .exchanged _ _ _ => false

/-- The effect of `_auto_refresh_st` on the token it refreshes: an
exception anywhere leaves the record untouched; finding no session token
leaves it untouched; a new ST with a failed ST-to-AT exchange updates only
`st` (main.py line 352); full success updates `st`, `at` and `at_expires`
(main.py lines 352 and 369). -/
def autoRefreshSt (o : RefreshOutcome) (t : Token) : Token :=
  match o with
  | .crashed => t
  | .noST => t
  | .stButExchangeFailed s => { t with st := s }
  | .exchanged s a e => { t with st := s, accessToken := a, at_expires := e }

/-- The effect of `_auto_refresh_st` on the pool: `db.update_token` updates
the matching row in place; no branch of `_auto_refresh_st` deletes a token
or touches `is_active`. -/
def applyRefresh (o : RefreshOutcome) (tid : Int) (pool : List Token) :
    List Token :=
  pool.map fun x => if x.id = tid then autoRefreshSt o x else x

/-- The firing times of `auto_unban_task` (main.py lines 91-100) that have
occurred by time `t`: the task loops `await asyncio.sleep(3600)` then runs
the sweep, so starting at time 0 it fires at 3600, 7200, 3600*3, .... -/
def sweepsUpTo (t : Nat) : List Nat :=
  (List.range (t / 3600)).map fun k => 3600 * (k + 1)

/-- Modelled from the spec: `token_manager.auto_unban_429_tokens` is not
under src/ (main.py line 96 only calls it).  Per the specification's health
state machine, `RateLimited --(hourly sweep fires AND ban age >= 1 hour)-->
Healthy`, so a sweep firing at time `s` clears a ban recorded at time `T`
iff `T + 3600 <= s`.  A worker banned at `T` is therefore still banned at
time `t` iff no sweep that has fired by `t` was at least one hour after the
ban. -/
def isBannedAt (T t : Nat) : Bool :=
  !((sweepsUpTo t).any fun s => T + 3600 ≤ s)

/-- Modelled from the spec: `token_manager.add_token` (the WorkerStore
`add` operation) is not under src/ — admin.py lines 243-252 and 475-481
only call it.  Per the specification, `add(refreshCredential, options)`
fails with `InvalidCredential` if the exchange with the upstream identity
service fails, fails with `DuplicateAccount` if the resolved account email
already has a record, and otherwise creates and returns the new worker
record. -/
inductive AddResult where
  | invalidCredential
  | duplicateAccount
  | ok (w : Token)
deriving DecidableEq, Repr

/-- Modelled from the spec: the WorkerStore `add` operation (see
`AddResult`).  The identity exchange is a function parameter returning
`(accessToken, expiry, email)` on success and `none` on rejection. -/
def add_token (exchange : String → Option (String × Option Int × String))
    (pool : List Token) (newId : Int) (st : String) : AddResult × List Token :=
  match exchange st with
  | none => (.invalidCredential, pool)
  | some (a, e, em) =>
    if pool.any fun t => t.email == em then (.duplicateAccount, pool)
    else
      let w : Token :=
        { id := newId, email := em, st := st, accessToken := a,
          at_expires := e, is_active := true, banned_at := none }
      (.ok w, pool ++ [w])

/-- Extraction of the provided token from the Authorization header in
`plugin_update_token` (admin.py lines 950-955): a missing header yields no
token; a header starting with "Bearer " is stripped of that prefix;
otherwise the raw header value is used. -/
def extractBearer (auth : Option String) : Option String :=
  match auth with
  | none => none
  | some a => if a.startsWith "Bearer " then some (a.drop 7) else some a

/-- The `plugin_update_token` endpoint (admin.py lines 943-1026), returning
the HTTP status and the resulting pool.  The stored plugin connection token
is a string whose empty value models an unset configuration (Python's
`not plugin_config.connection_token`).  The request is rejected with 401
when the stored token is unset or the provided token differs; then a
missing session token is a 400; then the ST-to-AT exchange runs and a
failure or missing email is a 400; finally the token with the resolved
email is updated in place if present and added otherwise. -/
def pluginUpdateToken (stored : String) (auth : Option String)
    (sessionToken : Option String)
    (exchange : String → Option (String × Option Int × String))
    (pool : List Token) (newId : Int) : Nat × List Token :=
  if stored = "" ∨ extractBearer auth ≠ some stored then (401, pool)
  else
    match sessionToken with
    | none => (400, pool)
    | some s =>
      match exchange s with
      | none => (400, pool)
      | some (a, e, em) =>
        if em = "" then (400, pool)
        else
          match pool.find? fun t => t.email == em with
          | some ex =>
            (200, pool.map fun t =>
              if t.id = ex.id then
                { t with st := s, accessToken := a, at_expires := e }
              else t)
          | none =>
            (200, (add_token (fun _ => some (a, e, em)) pool newId s).2)

/-- The constant filesystem predicate with no cached sessions. -/
def noSession : Int → Bool := fun _ => false

/-- The constant filesystem predicate where every token has a session. -/
def allSession : Int → Bool := fun _ => true

/-- Fixture: an active token expiring at 100000. -/
def tokA : Token := ⟨1, "a", "", "", some 100000, true, none⟩

/-- Fixture: an active token expiring at 95000. -/
def tokB : Token := ⟨2, "b", "", "", some 95000, true, none⟩

/-- Fixture: an active token expiring at 36000 (10 hours). -/
def tokF : Token := ⟨1, "f", "", "", some 36000, true, none⟩

/-- Fixture: an active token expiring at 10800 (3 hours). -/
def wTok : Token := ⟨2, "w", "", "", some 10800, true, none⟩

/-- Fixture: an active token expiring at 1000, due at time 0. -/
def tokDue : Token := ⟨3, "d", "", "", some 1000, true, none⟩

/-- Fixture: an active token expiring at 2000, due at time 0. -/
def tokDue2 : Token := ⟨4, "e", "", "", some 2000, true, none⟩

/-- Fixture: an identity exchange accepting only the credential "good". -/
def exch0 : String → Option (String × Option Int × String) :=
  fun s => if s == "good" then some ("AT1", some 1000, "u@x") else none

theorem scanStep_snd (hs : Int → Bool) (now : Int)
    (acc : Option Int × List Token) (t : Token) :
    (scanStep hs now acc t).2 =
      acc.2 ++ if dueCond hs now t then [t] else [] := by
  unfold scanStep dueCond
  cases hA : t.is_active
  · simp
  · cases hE : t.at_expires with
    | none => simp
    | some e =>
      by_cases h7 : e - now ≤ refreshBuffer
      · by_cases hsid : hs t.id = true <;> simp [h7, hsid]
      · simp only [Bool.not_true, Bool.false_eq_true, if_false, h7]
        cases acc.1 with
        | none => simp [h7]
        | some v => by_cases hv : e < v <;> simp [h7, hv]

theorem foldl_scanStep_snd (hs : Int → Bool) (now : Int) :
    ∀ (ts : List Token) (acc : Option Int × List Token),
      (List.foldl (scanStep hs now) acc ts).2 =
        acc.2 ++ ts.filter (dueCond hs now) := by
  intro ts
  induction ts with
  | nil => intro acc; simp
  | cons t ts ih =>
    intro acc
    rw [List.foldl_cons, ih, List.filter_cons]
    rw [scanStep_snd]
    by_cases h : dueCond hs now t = true <;> simp [h]

theorem tokensToRefresh_eq_filter (hs : Int → Bool) (tokens : List Token)
    (now : Int) :
    tokensToRefresh hs tokens now = tokens.filter (dueCond hs now) := by
  simpa [tokensToRefresh, scanResult] using
    foldl_scanStep_snd hs now tokens (none, [])

theorem dueCond_eq_true_iff (hs : Int → Bool) (now : Int) (t : Token) :
    dueCond hs now t = true ↔
      t.is_active = true ∧
        (∃ e, t.at_expires = some e ∧ e - now ≤ refreshBuffer) ∧
        hs t.id = true := by
  unfold dueCond
  cases hE : t.at_expires <;> simp [hE, and_assoc]

theorem scanStep_fst_untracked (hs : Int → Bool) (now : Int)
    (l : List Token) (t : Token) (h : trackedCond now t = false) :
    (scanStep hs now (none, l) t).1 = none := by
  unfold trackedCond at h
  unfold scanStep
  cases hA : t.is_active
  · simp [hA]
  · cases hE : t.at_expires with
    | none => simp [hA, hE]
    | some e =>
      rw [hA, hE] at h
      simp only [Bool.true_and, decide_eq_false_iff_not, not_lt] at h
      simp [hA, hE, h]

theorem foldl_scanStep_fst_none (hs : Int → Bool) (now : Int) :
    ∀ (ts : List Token) (l : List Token),
      (∀ t ∈ ts, trackedCond now t = false) →
      (List.foldl (scanStep hs now) (none, l) ts).1 = none := by
  intro ts
  induction ts with
  | nil => intro l _; simp
  | cons t ts ih =>
    intro l h
    have ht : trackedCond now t = false := h t (by simp)
    have hts : ∀ x ∈ ts, trackedCond now x = false := fun x hx =>
      h x (by simp [hx])
    rw [List.foldl_cons]
    have h1 : (scanStep hs now (none, l) t).1 = none :=
      scanStep_fst_untracked hs now l t ht
    have h2 : scanStep hs now (none, l) t =
        (none, (scanStep hs now (none, l) t).2) :=
      Prod.ext h1 rfl
    rw [h2]
    exact ih _ hts

theorem dueCond_mono (hs : Int → Bool) (now now2 : Int) (t t2 : Token)
    (hid : t2.id = t.id) (hact : t2.is_active = t.is_active)
    (hexp : t2.at_expires = t.at_expires) (hle : now ≤ now2)
    (h : dueCond hs now t = true) : dueCond hs now2 t2 = true := by
  unfold dueCond at h ⊢
  rw [hid, hact, hexp]
  cases hE : t.at_expires with
  | none => rw [hE] at h; simp at h
  | some e =>
    rw [hE] at h
    simp only [Bool.and_eq_true, decide_eq_true_iff] at h ⊢
    exact ⟨⟨h.1.1, by omega⟩, h.2⟩

theorem dispatchLoop_getElem (l : List Token) :
    ∀ (now : Int) (i : Nat) (p : Int × Int),
      (dispatchLoop now l)[i]? = some p → p.1 = now + 5 * i := by
  induction l with
  | nil => intro now i p hp; simp [dispatchLoop] at hp
  | cons t ts ih =>
    intro now i p hp
    cases i with
    | zero =>
      simp [dispatchLoop] at hp
      rw [← hp]
      simp
    | succ j =>
      simp only [dispatchLoop, List.getElem?_cons_succ] at hp
      have := ih (now + 5) j p hp
      rw [this]
      push_cast
      ring

/-- Claim C1 (code divergence): the scan loop's tracked next refresh time is
not `min(expiry) - refreshBuffer`.  With two active tokens expiring at
100000 and 95000 (processed in that order, at time 0), the code sleeps
92800 seconds — it keeps the first token's buffered time because the later
token's raw expiry 95000 is compared against the buffered value 92800 —
while the claimed duration, the minimum expiry minus the buffer, is 87800
seconds. -/
theorem c1_sleep_diverges_from_min_expiry :
    nextRefreshTime noSession [tokA, tokB] 0 = some 92800 ∧
    sleepSeconds noSession [tokA, tokB] 0 = 92800 ∧
    specSleepSeconds [tokA, tokB] 0 = 87800 ∧
    sleepSeconds noSession [tokA, tokB] 0 ≠ specSleepSeconds [tokA, tokB] 0 := by
  refine ⟨rfl, rfl, rfl, ?_⟩
  decide

/-- Claim C3: a worker is enqueued for refresh by a scan iff it is in the
pool, is active, has a known expiry at most `refreshBuffer` away, and a
cached browser session exists for it; in particular a worker meeting the
expiry condition without a cached session is not enqueued. -/
theorem c3_refresh_enqueue_iff (hs : Int → Bool) (tokens : List Token)
    (now : Int) (t : Token) :
    t ∈ tokensToRefresh hs tokens now ↔
      t ∈ tokens ∧ t.is_active = true ∧
        (∃ e, t.at_expires = some e ∧ e - now ≤ refreshBuffer) ∧
        hs t.id = true := by
  rw [tokensToRefresh_eq_filter, List.mem_filter, dueCond_eq_true_iff]

/-- Claim C6: when no active worker has a known expiry more than
`refreshBuffer` away, the scan tracks no next refresh time and the loop
sleeps the fixed fallback interval of 3600 seconds before rescanning. -/
theorem c6_no_tracked_expiry_sleeps_fallback (hs : Int → Bool)
    (tokens : List Token) (now : Int)
    (h : ∀ t ∈ tokens, trackedCond now t = false) :
    sleepSeconds hs tokens now = 3600 := by
  have h1 : (scanResult hs tokens now).1 = none :=
    foldl_scanStep_fst_none hs now tokens [] h
  unfold sleepSeconds
  simp only [h1]

/-- Witness for C6: a pool holding one due token, one inactive token and
one token with unknown expiry tracks nothing, so the loop sleeps 3600
seconds. -/
theorem c6_witness :
    sleepSeconds noSession [tokDue, ⟨9, "i", "", "", some 90000, false, none⟩,
      ⟨10, "n", "", "", none, true, none⟩] 0 = 3600 :=
  c6_no_tracked_expiry_sleeps_fallback noSession _ 0 (by decide)

/-- Claim C7: within one scan, consecutive refresh dispatches are exactly 5
seconds apart: the entry at position `i + 1` of the timed dispatch list is
dispatched 5 seconds after the entry at position `i`. -/
theorem c7_dispatch_stagger (hs : Int → Bool) (tokens : List Token)
    (now : Int) (i : Nat) (a b : Int × Int)
    (ha : (dispatchTimes hs tokens now)[i]? = some a)
    (hb : (dispatchTimes hs tokens now)[i + 1]? = some b) :
    b.1 - a.1 = 5 := by
  unfold dispatchTimes at ha hb
  have h1 := dispatchLoop_getElem _ _ _ _ ha
  have h2 := dispatchLoop_getElem _ _ _ _ hb
  rw [h1, h2]
  push_cast
  ring

/-- Witness for C7: with two due tokens with cached sessions, the first two
dispatches happen at times 0 and 5, which differ by 5 seconds. -/
theorem c7_witness :
    (((5 : Int), (4 : Int)) : Int × Int).1 -
      (((0 : Int), (3 : Int)) : Int × Int).1 = 5 :=
  c7_dispatch_stagger allSession [tokDue, tokDue2] 0 0 (0, 3) (5, 4)
    (by decide) (by decide)

/-- Claim C5: a failed credential refresh leaves the worker's id, enable
flag and expiry untouched, removes nothing from the pool, and the worker
that was due for refresh is still due at any later scan (given its session
file still exists). -/
theorem c5_refresh_failure_keeps_worker (o : RefreshOutcome) (t : Token)
    (hs : Int → Bool) (now later : Int) (pool : List Token)
    (hfail : o.isFailure = true) :
    (autoRefreshSt o t).id = t.id ∧
    (autoRefreshSt o t).is_active = t.is_active ∧
    (autoRefreshSt o t).at_expires = t.at_expires ∧
    (applyRefresh o t.id pool).length = pool.length ∧
    (now ≤ later → dueCond hs now t = true →
      dueCond hs later (autoRefreshSt o t) = true) := by
  have hid : (autoRefreshSt o t).id = t.id := by cases o <;> rfl
  have hact : (autoRefreshSt o t).is_active = t.is_active := by
    cases o <;> rfl
  have hexp : (autoRefreshSt o t).at_expires = t.at_expires := by
    cases o with
    | exchanged s a e => simp [RefreshOutcome.isFailure] at hfail
    | crashed => rfl
    | noST => rfl
    | stButExchangeFailed s => rfl
  exact ⟨hid, hact, hexp, by simp [applyRefresh],
    fun hle hdue => dueCond_mono hs now later t _ hid hact hexp hle hdue⟩

/-- Witness for C5: a crashed refresh of a due token at time 0 keeps all
its fields and it is still due at time 50. -/
theorem c5_witness :
    (autoRefreshSt .crashed tokDue).id = tokDue.id ∧
    (autoRefreshSt .crashed tokDue).is_active = tokDue.is_active ∧
    (autoRefreshSt .crashed tokDue).at_expires = tokDue.at_expires ∧
    (applyRefresh .crashed tokDue.id [tokDue]).length = [tokDue].length ∧
    ((0 : Int) ≤ 50 → dueCond allSession 0 tokDue = true →
      dueCond allSession 50 (autoRefreshSt .crashed tokDue) = true) :=
  c5_refresh_failure_keeps_worker .crashed tokDue allSession 0 50 [tokDue] rfl

/-- Claim C8: the add-worker operation fails with `InvalidCredential` and
creates no record when the identity exchange rejects the credential, fails
with `DuplicateAccount` and creates no record when the resolved email
already has a record, and otherwise returns the new worker record appended
to the pool. -/
theorem c8_add_token_spec
    (exchange : String → Option (String × Option Int × String))
    (pool : List Token) (newId : Int) (st : String) :
    (exchange st = none →
      add_token exchange pool newId st = (.invalidCredential, pool)) ∧
    (∀ a e em, exchange st = some (a, e, em) →
      (pool.any fun t => t.email == em) = true →
      add_token exchange pool newId st = (.duplicateAccount, pool)) ∧
    (∀ a e em, exchange st = some (a, e, em) →
      (pool.any fun t => t.email == em) = false →
      add_token exchange pool newId st =
        (.ok ⟨newId, em, st, a, e, true, none⟩,
          pool ++ [⟨newId, em, st, a, e, true, none⟩])) := by
  refine ⟨fun h => ?_, fun a e em h hdup => ?_, fun a e em h hdup => ?_⟩
  · simp [add_token, h]
  · simp [add_token, h, hdup]
  · simp [add_token, h, hdup]

/-- Witness for C8: with an exchange accepting only "good", adding "bad" to
the empty pool fails with `InvalidCredential`, adding "good" next to an
existing record for the same email fails with `DuplicateAccount`, and
adding "good" to the empty pool returns the new record. -/
theorem c8_witness :
    add_token exch0 [] 7 "bad" = (.invalidCredential, []) ∧
    add_token exch0 [⟨5, "u@x", "", "", none, true, none⟩] 7 "good" =
      (.duplicateAccount, [⟨5, "u@x", "", "", none, true, none⟩]) ∧
    add_token exch0 [] 7 "good" =
      (.ok ⟨7, "u@x", "good", "AT1", some 1000, true, none⟩,
        [⟨7, "u@x", "good", "AT1", some 1000, true, none⟩]) :=
  ⟨(c8_add_token_spec exch0 [] 7 "bad").1 rfl,
    (c8_add_token_spec exch0 [⟨5, "u@x", "", "", none, true, none⟩] 7
      "good").2.1 "AT1" (some 1000) "u@x" rfl rfl,
    (c8_add_token_spec exch0 [] 7 "good").2.2 "AT1" (some 1000) "u@x"
      rfl rfl⟩

/-- Claim C9: the plugin token-update endpoint fails closed: when the
stored connection token is unset (empty) or the provided Authorization
token differs from it, the request is rejected with status 401 and the
pool is unchanged. -/
theorem c9_plugin_auth_fail_closed (stored : String) (auth : Option String)
    (sessionToken : Option String)
    (exchange : String → Option (String × Option Int × String))
    (pool : List Token) (newId : Int)
    (h : stored = "" ∨ extractBearer auth ≠ some stored) :
    pluginUpdateToken stored auth sessionToken exchange pool newId =
      (401, pool) := by
  unfold pluginUpdateToken
  rw [if_pos h]

/-- Witness for C9: with no connection token configured, a request carrying
a matching empty Bearer token is still rejected with 401 and adds nothing
to the (empty) pool. -/
theorem c9_witness :
    pluginUpdateToken "" (some "Bearer secret") (some "good") exch0 [] 7 =
      (401, []) :=
  c9_plugin_auth_fail_closed "" (some "Bearer secret") (some "good") exch0
    [] 7 (Or.inl rfl)

/-- Claim C10: `delete_session` is idempotent at the interface: when no
session file exists it returns true, and any call that returns true leaves
a state in which `has_session` for that id is false. -/
theorem c10_delete_session_idempotent (fs : List Int) (tid : Int)
    (removeOk : Bool) :
    (has_session fs tid = false → (delete_session fs tid removeOk).1 = true) ∧
    ((delete_session fs tid removeOk).1 = true →
      has_session (delete_session fs tid removeOk).2 tid = false) := by
  unfold has_session delete_session
  by_cases hmem : tid ∈ fs
  · cases removeOk <;> simp [hmem]
  · simp [hmem]

/-- Witness for C10: deleting the session of id 3 when only ids 1 and 2
have sessions returns true, and after deleting the existing session of id
3 from a state holding ids 1, 2 and 3, `has_session` for id 3 is false. -/
theorem c10_witness :
    (delete_session [1, 2] 3 true).1 = true ∧
    has_session (delete_session [1, 2, 3] 3 true).2 3 = false :=
  ⟨(c10_delete_session_idempotent [1, 2] 3 true).1 rfl,
    (c10_delete_session_idempotent [1, 2, 3] 3 true).2 rfl⟩

/-- Counterexample to claim C2: a pool holds one worker expiring at 36000,
so the scan at time 0 computes a wake at 28800; a worker with the sooner
expiry 10800 is added at time 100, strictly inside the sleep; yet the
loop's next scan still occurs at 28800 — not earlier than the previously
computed wake time, refuting the claim that the sleep is interruptible or
bounded. -/
theorem c2_counterexample :
    nextScanTime noSession [tokF] 0 = 28800 ∧
    (0 : Int) < 100 ∧ (100 : Int) < nextScanTime noSession [tokF] 0 ∧
    wTok.at_expires = some 10800 ∧ tokF.at_expires = some 36000 ∧
    scanTime noSession [tokF] [(100, wTok)] 1 = 28800 ∧
    ¬scanTime noSession [tokF] [(100, wTok)] 1 <
      nextScanTime noSession [tokF] 0 := by
  refine ⟨rfl, by decide, by decide, rfl, rfl, rfl, by decide⟩

/-- Claim C2 amended: the sleep, once computed, runs to completion — any
worker additions strictly after a scan leave that scan's wake time exactly
what was computed from the pool at scan time; added workers take effect
only from the following scan. -/
theorem c2_amended_sleep_not_interruptible (hs : Int → Bool)
    (p0 : List Token) (adds : List (Int × Token))
    (h : ∀ a ∈ adds, (0 : Int) < a.1) :
    scanTime hs p0 adds 1 = nextScanTime hs p0 0 := by
  have hfil : (adds.filter fun a => a.1 ≤ (0 : Int)) = [] := by
    rw [List.filter_eq_nil_iff]
    intro a ha
    simp only [decide_eq_true_eq, not_le]
    exact h a ha
  have hp : poolAt p0 adds 0 = p0 := by
    unfold poolAt
    rw [hfil]
    simp
  show nextScanTime hs (poolAt p0 adds (scanTime hs p0 adds 0))
      (scanTime hs p0 adds 0) = nextScanTime hs p0 0
  have h0 : scanTime hs p0 adds 0 = 0 := rfl
  rw [h0, hp]

/-- Witness for C2 amended: the mid-sleep addition of the sooner-expiring
worker at time 100 leaves the first wake of the loop at the originally
computed time. -/
theorem c2_amended_witness :
    scanTime noSession [tokF] [(100, wTok)] 1 =
      nextScanTime noSession [tokF] 0 :=
  c2_amended_sleep_not_interruptible noSession [tokF] [(100, wTok)]
    (by decide)

/-- Counterexample to claim C4: a worker rate-limit banned at time 100 is
still banned at time 100 + 3660 (T plus 61 minutes), because the only
sweep fired so far — at 3600 — was less than one hour after the ban. -/
theorem c4_counterexample : isBannedAt 100 (100 + 3660) = true := by decide

/-- Claim C4 amended: the unban sweep is the recurring hourly timer of
`auto_unban_task`; a worker banned at `T` is never cleared before
`T + 3600` (in particular it is still excluded at `T + 1800`), and it is
cleared by any time at least `T + 7200`, when a sweep at least one hour
after the ban has certainly fired — but not necessarily by `T + 3660`. -/
theorem c4_amended_unban_window (T t : Nat) :
    (t < T + 3600 → isBannedAt T t = true) ∧
    (T + 7200 ≤ t → isBannedAt T t = false) := by
  constructor
  · intro hlt
    unfold isBannedAt sweepsUpTo
    simp only [Bool.not_eq_true', List.any_eq_false, List.mem_map,
      List.mem_range, decide_eq_true_eq]
    rintro s ⟨k, hk, rfl⟩
    have h2 : 3600 * (t / 3600) ≤ t := Nat.mul_div_le t 3600
    have h1 : 3600 * (k + 1) ≤ 3600 * (t / 3600) :=
      Nat.mul_le_mul_left 3600 hk
    omega
  · intro hge
    unfold isBannedAt sweepsUpTo
    simp only [Bool.not_eq_false', List.any_eq_true, List.mem_map,
      List.mem_range, decide_eq_true_eq]
    refine ⟨3600 * (T / 3600 + 2), ⟨T / 3600 + 1, by omega, rfl⟩, by omega⟩

/-- Witness for C4 amended: a worker banned at time 100 is still banned at
time 1900 (half an hour later) and no longer banned at time 7300. -/
theorem c4_amended_witness :
    isBannedAt 100 1900 = true ∧ isBannedAt 100 7300 = false :=
  ⟨(c4_amended_unban_window 100 1900).1 (by decide),
    (c4_amended_unban_window 100 7300).2 (by decide)⟩
